import Mathlib

/-!
Verification of the todo-service request pipeline.

Shallow embedding of:
  - `addTodo` (server/src/controller/addTodo.ts): validates the request
    body (body presence, then `description`, then `category`, each by JS
    truthiness), and on success awaits `db.connect()`, calls
    `TodoModel.insertMany({description, category})` WITHOUT awaiting it,
    then sends `res.json({message: "addTodo"})`.
  - `getTodos` (server/src/controller/getTodos.ts): fabricates one Todo
    record `{id: Math.random(), description: "description",
    category: "hobby", done: false}` and sends it, touching no store.
  - the persistence gateway `db.connect` (mongoose-backed): no-op when
    `mongoose.connection.readyState === 1`, otherwise awaits
    `mongoose.connect(url)`.
  - the `Category` label set from the shared types file.

Handlers are modelled as pure functions from the request to the ordered
trace of their observable effects (console.debug, persistence calls each
tagged with whether the code awaits them, response status and response
json). JS numbers are modelled by `Int` (no property here depends on
fractional values or NaN); a missing object field is `JsValue.undefined`.
-/

namespace CampusDemo

/-- A JavaScript value as it can appear in a field of the untyped request
body. `number` is modelled by `Int`. -/
inductive JsValue where
  | undefined : JsValue
  | null : JsValue
  | boolean : Bool → JsValue
  | number : Int → JsValue
  | str : String → JsValue
  deriving DecidableEq

/-- JavaScript truthiness: `undefined`, `null`, `false`, `0` and `""` are
falsy, everything else modelled here is truthy. -/
def JsValue.truthy : JsValue → Bool
  | .undefined => false
  | .null => false
  | .boolean b => b
  | .number n => n != 0
  | .str s => s != ""

/-- The request-body fields that `addTodo` reads. A field absent from the
posted object is `JsValue.undefined`. -/
structure ReqBody where
  description : JsValue
  category : JsValue
  deriving DecidableEq

/-- The parts of the express `Request` the handlers read: `req.path` and
`req.body` (`none` models a missing/falsy body, as in the unit tests where
`req = {}`). -/
structure Req where
  path : String
  body : Option ReqBody
  deriving DecidableEq

/-- One observable effect of a handler, in program order.
  - `debug tag arg`: a `console.debug(tag, arg)` call.
  - `callConnect awaited`: a `db.connect()` call; the flag records whether
    the source awaits the returned promise.
  - `callInsertMany payload awaited`: a `TodoModel.insertMany(payload)`
    call, the payload given as the ordered field list of the object
    literal; the flag records whether the source awaits it.
  - `status c`: a `res.status(c)` call.
  - `json body`: a `res.json(body)` call, the body as an ordered field
    list. -/
inductive Step where
  | debug : String → String → Step
  | callConnect : Bool → Step
  | callInsertMany : List (String × JsValue) → Bool → Step
  | status : Nat → Step
  | json : List (String × JsValue) → Step
  deriving DecidableEq

/-- Effect trace of `addTodo` from server/src/controller/addTodo.ts,
statement by statement. -/
def addTodo (req : Req) : List Step :=
  Step.debug "addTodo" req.path ::
  match req.body with
  | none =>
      [Step.status 400, Step.json [("message", JsValue.str "No body!")]]
  | some b =>
      let description := b.description
      if !description.truthy then
        [Step.status 400, Step.json [("message", JsValue.str "No description!")]]
      else
        let category := b.category
        if !category.truthy then
          [Step.status 400, Step.json [("message", JsValue.str "No category!")]]
        else
          [Step.callConnect true,
           Step.callInsertMany
             [("description", description), ("category", category)] false,
           Step.json [("message", JsValue.str "addTodo")]]

/-- Effect trace of `getTodos` from server/src/controller/getTodos.ts;
`rand` is the value drawn by `Math.random()`. -/
def getTodos (path : String) (rand : Int) : List Step :=
  [Step.debug "getTodos" path,
   Step.json [("id", JsValue.number rand),
              ("description", JsValue.str "description"),
              ("category", JsValue.str "hobby"),
              ("done", JsValue.boolean false)]]

/-- Number of `db.connect()` calls in a trace. -/
def connectCalls : List Step → Nat
  | [] => 0
  | Step.callConnect _ :: t => connectCalls t + 1
  | _ :: t => connectCalls t

/-- The payloads of the `TodoModel.insertMany` calls in a trace, in
order. -/
def insertCalls : List Step → List (List (String × JsValue))
  | [] => []
  | Step.callInsertMany p _ :: t => p :: insertCalls t
  | _ :: t => insertCalls t

/-- The HTTP status of the response: the status set by `res.status`, or
200 (the express default) when the trace never calls it. The traces of
this program call `res.status` at most once. -/
def statusCode : List Step → Nat
  | [] => 200
  | Step.status c :: _ => c
  | _ :: t => statusCode t

/-- The bodies sent by `res.json` calls in a trace, in order. -/
def jsonBodies : List Step → List (List (String × JsValue))
  | [] => []
  | Step.json b :: t => b :: jsonBodies t
  | _ :: t => jsonBodies t

/-- mongoose `readyState` encoding: 0 disconnected, 1 connected,
2 connecting, 3 disconnecting. -/
def connectedState : Nat := 1

/-- `db.connect` from the persistence-gateway utils file, as a transformer
of the mongoose `readyState`: it returns the new state paired with the
number of underlying `mongoose.connect` attempts it issued (0 or 1).
Environment model: an awaited `mongoose.connect` that succeeds leaves the
connection in state 1 (connected). -/
def connect (readyState : Nat) : Nat × Nat :=
  if readyState = connectedState then (readyState, 0)
  else (connectedState, 1)

/-- Two sequential calls of `db.connect` (the second starting after the
first completed): resulting state and total underlying attempts. -/
def connectTwice (readyState : Nat) : Nat × Nat :=
  let r1 := connect readyState
  let r2 := connect r1.1
  (r2.1, r1.2 + r2.2)

/-- The closed `Category` label set from the shared types file. -/
def knownCategories : List String := ["shopping", "learning", "hobby"]

/-- Membership in the `Category` label set. -/
def isKnownCategory (c : String) : Bool := knownCategories.contains c

/-- C1: for every request whose body has a truthy description and a truthy
category, `addTodo` calls connect exactly once, calls insertMany exactly
once with a payload holding exactly the fields description and category
(no done, no id), and responds 200 with the single body
`{message: "addTodo"}`. -/
theorem addTodo_success (p : String) (b : ReqBody)
    (hd : b.description.truthy = true) (hc : b.category.truthy = true) :
    connectCalls (addTodo ⟨p, some b⟩) = 1 ∧
    insertCalls (addTodo ⟨p, some b⟩) =
      [[("description", b.description), ("category", b.category)]] ∧
    statusCode (addTodo ⟨p, some b⟩) = 200 ∧
    jsonBodies (addTodo ⟨p, some b⟩) = [[("message", JsValue.str "addTodo")]] := by
  simp [addTodo, hd, hc, connectCalls, insertCalls, statusCode, jsonBodies]

/-- Witness for C1 at the valid request `{description: "d", category: "c"}`. -/
theorem addTodo_success_witness :
    connectCalls (addTodo ⟨"/add", some ⟨JsValue.str "d", JsValue.str "c"⟩⟩) = 1 ∧
    insertCalls (addTodo ⟨"/add", some ⟨JsValue.str "d", JsValue.str "c"⟩⟩) =
      [[("description", JsValue.str "d"), ("category", JsValue.str "c")]] ∧
    statusCode (addTodo ⟨"/add", some ⟨JsValue.str "d", JsValue.str "c"⟩⟩) = 200 ∧
    jsonBodies (addTodo ⟨"/add", some ⟨JsValue.str "d", JsValue.str "c"⟩⟩) =
      [[("message", JsValue.str "addTodo")]] :=
  addTodo_success "/add" ⟨JsValue.str "d", JsValue.str "c"⟩ (by decide) (by decide)

/-- C2: for every request with no body, `addTodo` produces exactly the
trace debug, status 400, json `{message: "No body!"}` — so it performs no
further checks and never calls connect or insertMany. -/
theorem addTodo_no_body (p : String) :
    addTodo ⟨p, none⟩ =
      [Step.debug "addTodo" p, Step.status 400,
       Step.json [("message", JsValue.str "No body!")]] ∧
    statusCode (addTodo ⟨p, none⟩) = 400 ∧
    jsonBodies (addTodo ⟨p, none⟩) = [[("message", JsValue.str "No body!")]] ∧
    connectCalls (addTodo ⟨p, none⟩) = 0 ∧
    insertCalls (addTodo ⟨p, none⟩) = [] := by
  simp [addTodo, statusCode, jsonBodies, connectCalls, insertCalls]

/-- Witness for C2 at the path of the route. -/
theorem addTodo_no_body_witness :
    addTodo ⟨"/add", none⟩ =
      [Step.debug "addTodo" "/add", Step.status 400,
       Step.json [("message", JsValue.str "No body!")]] ∧
    statusCode (addTodo ⟨"/add", none⟩) = 400 ∧
    jsonBodies (addTodo ⟨"/add", none⟩) = [[("message", JsValue.str "No body!")]] ∧
    connectCalls (addTodo ⟨"/add", none⟩) = 0 ∧
    insertCalls (addTodo ⟨"/add", none⟩) = [] :=
  addTodo_no_body "/add"

/-- C3: for every request with a body but a falsy description (whatever
the category field holds, present or not), `addTodo` responds exactly
400 `{message: "No description!"}` and never calls connect or insertMany;
and the body-presence check precedes the description check: the no-body
request gets `{message: "No body!"}` instead. -/
theorem addTodo_no_description (p : String) (b : ReqBody)
    (hd : b.description.truthy = false) :
    statusCode (addTodo ⟨p, some b⟩) = 400 ∧
    jsonBodies (addTodo ⟨p, some b⟩) =
      [[("message", JsValue.str "No description!")]] ∧
    connectCalls (addTodo ⟨p, some b⟩) = 0 ∧
    insertCalls (addTodo ⟨p, some b⟩) = [] ∧
    jsonBodies (addTodo ⟨p, none⟩) = [[("message", JsValue.str "No body!")]] := by
  simp [addTodo, hd, statusCode, jsonBodies, connectCalls, insertCalls]

/-- Witness for C3 at the empty body `{}` (description and category both
missing). -/
theorem addTodo_no_description_witness :
    statusCode (addTodo ⟨"/add", some ⟨JsValue.undefined, JsValue.undefined⟩⟩) = 400 ∧
    jsonBodies (addTodo ⟨"/add", some ⟨JsValue.undefined, JsValue.undefined⟩⟩) =
      [[("message", JsValue.str "No description!")]] ∧
    connectCalls (addTodo ⟨"/add", some ⟨JsValue.undefined, JsValue.undefined⟩⟩) = 0 ∧
    insertCalls (addTodo ⟨"/add", some ⟨JsValue.undefined, JsValue.undefined⟩⟩) = [] ∧
    jsonBodies (addTodo ⟨"/add", none⟩) = [[("message", JsValue.str "No body!")]] :=
  addTodo_no_description "/add" ⟨JsValue.undefined, JsValue.undefined⟩ (by decide)

/-- C4: for every request with a body whose description is truthy but
whose category is falsy, `addTodo` responds exactly 400
`{message: "No category!"}` and never calls connect or insertMany. -/
theorem addTodo_no_category (p : String) (b : ReqBody)
    (hd : b.description.truthy = true) (hc : b.category.truthy = false) :
    statusCode (addTodo ⟨p, some b⟩) = 400 ∧
    jsonBodies (addTodo ⟨p, some b⟩) =
      [[("message", JsValue.str "No category!")]] ∧
    connectCalls (addTodo ⟨p, some b⟩) = 0 ∧
    insertCalls (addTodo ⟨p, some b⟩) = [] := by
  simp [addTodo, hd, hc, statusCode, jsonBodies, connectCalls, insertCalls]

/-- Witness for C4 at the body `{description: "test-description"}`. -/
theorem addTodo_no_category_witness :
    statusCode (addTodo ⟨"/add",
      some ⟨JsValue.str "test-description", JsValue.undefined⟩⟩) = 400 ∧
    jsonBodies (addTodo ⟨"/add",
      some ⟨JsValue.str "test-description", JsValue.undefined⟩⟩) =
      [[("message", JsValue.str "No category!")]] ∧
    connectCalls (addTodo ⟨"/add",
      some ⟨JsValue.str "test-description", JsValue.undefined⟩⟩) = 0 ∧
    insertCalls (addTodo ⟨"/add",
      some ⟨JsValue.str "test-description", JsValue.undefined⟩⟩) = [] :=
  addTodo_no_category "/add" ⟨JsValue.str "test-description", JsValue.undefined⟩
    (by decide) (by decide)

/-- C5: invariant over every execution of `addTodo`: every payload the
handler passes to insertMany consists of exactly a description field and a
category field, both truthy — no partial Todo is ever submitted. -/
theorem addTodo_insert_invariant (r : Req) (payload : List (String × JsValue))
    (hmem : payload ∈ insertCalls (addTodo r)) :
    ∃ d c, payload = [("description", d), ("category", c)] ∧
      d.truthy = true ∧ c.truthy = true := by
  obtain ⟨p, body⟩ := r
  match body with
  | none => simp [addTodo, insertCalls] at hmem
  | some b =>
      by_cases hd : b.description.truthy
      · by_cases hc : b.category.truthy
        · refine ⟨b.description, b.category, ?_, hd, hc⟩
          simp [addTodo, hd, hc, insertCalls] at hmem
          exact hmem
        · simp [addTodo, hd, hc, insertCalls] at hmem
      · simp [addTodo, hd, insertCalls] at hmem

/-- Witness for C5 at the valid request of the unit test. -/
theorem addTodo_insert_invariant_witness :
    ∃ d c,
      [("description", JsValue.str "test-description"),
       ("category", JsValue.str "test-category")] =
        [("description", d), ("category", c)] ∧
      d.truthy = true ∧ c.truthy = true :=
  addTodo_insert_invariant
    ⟨"/add", some ⟨JsValue.str "test-description", JsValue.str "test-category"⟩⟩
    [("description", JsValue.str "test-description"),
     ("category", JsValue.str "test-category")]
    (by decide)

/-- C6: connect is idempotent: from any state that is not already
connected, two sequential `db.connect` calls issue exactly one underlying
`mongoose.connect` attempt, and a connect call in the connected state is a
no-op (zero underlying attempts). -/
theorem connect_idempotent (s : Nat) (h : s ≠ connectedState) :
    (connectTwice s).2 = 1 ∧ (connect connectedState).2 = 0 := by
  constructor
  · simp [connectTwice, connect, h]
  · simp [connect]

/-- Witness for C6 from the disconnected state (readyState 0). -/
theorem connect_idempotent_witness :
    (connectTwice 0).2 = 1 ∧ (connect connectedState).2 = 0 :=
  connect_idempotent 0 (by decide)

/-- C7 failing input, evaluated: at the valid request
`{description: "d", category: "c"}` the handler trace awaits connect
(flag true) but issues insertMany with awaited flag false and sends the
success body right after it, with no await of the insert in between — the
response can be emitted while the insert is still pending, contrary to
the claim (and to the repository tutorial sample, which writes
`await TodoModel.insertMany(...)`). -/
theorem addTodo_insert_not_awaited :
    addTodo ⟨"/add", some ⟨JsValue.str "d", JsValue.str "c"⟩⟩ =
      [Step.debug "addTodo" "/add",
       Step.callConnect true,
       Step.callInsertMany
         [("description", JsValue.str "d"), ("category", JsValue.str "c")] false,
       Step.json [("message", JsValue.str "addTodo")]] := by
  decide

/-- C8: the handler checks only truthiness of category, never membership
in the `Category` label set: any request with a truthy description and a
nonempty category string that is NOT a known category still passes
validation, is submitted to insertMany with that category, and gets the
200 success response. -/
theorem addTodo_category_membership_unchecked (p : String) (d : JsValue)
    (c : String) (hd : d.truthy = true) (hc : c ≠ "")
    (_hk : isKnownCategory c = false) :
    statusCode (addTodo ⟨p, some ⟨d, JsValue.str c⟩⟩) = 200 ∧
    insertCalls (addTodo ⟨p, some ⟨d, JsValue.str c⟩⟩) =
      [[("description", d), ("category", JsValue.str c)]] ∧
    jsonBodies (addTodo ⟨p, some ⟨d, JsValue.str c⟩⟩) =
      [[("message", JsValue.str "addTodo")]] := by
  have hct : (JsValue.str c).truthy = true := by
    simp [JsValue.truthy, hc]
  simp [addTodo, hd, hct, statusCode, insertCalls, jsonBodies]

/-- Witness for C8 at the category "gardening", which is outside the label
set `{"shopping", "learning", "hobby"}`. -/
theorem addTodo_category_membership_unchecked_witness :
    statusCode (addTodo ⟨"/add",
      some ⟨JsValue.str "d", JsValue.str "gardening"⟩⟩) = 200 ∧
    insertCalls (addTodo ⟨"/add",
      some ⟨JsValue.str "d", JsValue.str "gardening"⟩⟩) =
      [[("description", JsValue.str "d"), ("category", JsValue.str "gardening")]] ∧
    jsonBodies (addTodo ⟨"/add",
      some ⟨JsValue.str "d", JsValue.str "gardening"⟩⟩) =
      [[("message", JsValue.str "addTodo")]] :=
  addTodo_category_membership_unchecked "/add" (JsValue.str "d") "gardening"
    (by decide) (by decide) (by decide)

/-- C9: for every request (and whatever `Math.random()` drew), `getTodos`
produces exactly one response: a single fabricated Todo whose id is the
drawn value and whose done flag is false, and its trace contains no
connect call and no insert call — the persistence gateway is never
touched. -/
theorem getTodos_stub (p : String) (rand : Int) :
    getTodos p rand =
      [Step.debug "getTodos" p,
       Step.json [("id", JsValue.number rand),
                  ("description", JsValue.str "description"),
                  ("category", JsValue.str "hobby"),
                  ("done", JsValue.boolean false)]] ∧
    jsonBodies (getTodos p rand) =
      [[("id", JsValue.number rand),
        ("description", JsValue.str "description"),
        ("category", JsValue.str "hobby"),
        ("done", JsValue.boolean false)]] ∧
    connectCalls (getTodos p rand) = 0 ∧
    insertCalls (getTodos p rand) = [] :=
  ⟨rfl, rfl, rfl, rfl⟩

/-- Witness for C9 at a concrete path and drawn value. -/
theorem getTodos_stub_witness :
    getTodos "/" 7 =
      [Step.debug "getTodos" "/",
       Step.json [("id", JsValue.number 7),
                  ("description", JsValue.str "description"),
                  ("category", JsValue.str "hobby"),
                  ("done", JsValue.boolean false)]] ∧
    jsonBodies (getTodos "/" 7) =
      [[("id", JsValue.number 7),
        ("description", JsValue.str "description"),
        ("category", JsValue.str "hobby"),
        ("done", JsValue.boolean false)]] ∧
    connectCalls (getTodos "/" 7) = 0 ∧
    insertCalls (getTodos "/" 7) = [] :=
  getTodos_stub "/" 7

/-- C10: `db.connect` short-circuits only in the connected state
(readyState 1): in every other state — disconnected (0), connecting (2),
disconnecting (3) — it issues exactly one new underlying
`mongoose.connect` attempt, while in state 1 it issues none; in
particular a connect invoked while a first connection is still being
established (state 2) triggers a second underlying attempt. -/
theorem connect_short_circuit_only_connected (s : Nat) :
    (s ≠ connectedState → (connect s).2 = 1) ∧
    (connect connectedState).2 = 0 := by
  constructor
  · intro h
    simp [connect, h]
  · simp [connect]

/-- Witness for C10 at the connecting state (readyState 2): the second
call issues another underlying attempt. -/
theorem connect_short_circuit_only_connected_witness :
    (connect 2).2 = 1 ∧ (connect connectedState).2 = 0 :=
  ⟨(connect_short_circuit_only_connected 2).1 (by decide),
   (connect_short_circuit_only_connected 2).2⟩

end CampusDemo
